import Mathlib

/-!
Verification of the seat-selection and booking wizard of the
BusReservationSystem frontend (src/frontend/src/App.js, component
`SeatSelection`).  The component's React state hooks and handlers are
shallowly embedded as pure Lean functions on an explicit state record:

  - `selectedSeats`, `passengerDetails`, `currentStep`, `isLoading`
    become the fields of `WizardState`;
  - `handleSeatClick`, `handlePassengerDetailChange` and the two phases
    of the async `handleBooking` become state-transition functions;
  - toast notifications become an explicit `Toast` value in the result.

JavaScript peculiarities that the claims hinge on are modelled
faithfully: a passenger-detail object may lack fields (spread of
`undefined`), so its fields are `Option String`; an array may contain
holes (`undefined` elements), so the roster is a `List (Option
PassengerDetail)`; out-of-bounds array assignment extends the array with
holes; `!s` on a string tests emptiness; `Array.prototype.some` skips
holes.
-/

/-- One passenger-detail object as built by the component.  Each field is
`Option String` because a JavaScript object produced by spreading
`undefined` (out-of-bounds write in `handlePassengerDetailChange`) holds
only the single assigned field; `none` models an absent field. -/
structure PassengerDetail where
  name : Option String
  age : Option String
  gender : Option String
deriving DecidableEq, Repr

/-- The initializer `{ name: "", age: "", gender: "male" }` used in
`handleSeatClick` for a seat position with no previous detail. -/
def defaultDetail : PassengerDetail :=
  { name := some "", age := some "", gender := some "male" }

/-- A seat object as rendered from the `seats` prop: its number and the
server-reported `is_booked` flag. -/
structure Seat where
  seat_number : String
  is_booked : Bool
deriving DecidableEq, Repr

/-- The `currentStep` state of the wizard tabs: "seats", "passengers",
"payment". -/
inductive WizardStep where
  | seats
  | passengers
  | payment
deriving DecidableEq, Repr

/-- The toast notifications the component can raise. -/
inductive Toast where
  | maxSeatsSelected
  | pleaseLogin
  | bookingConfirmed
  | bookingFailed
deriving DecidableEq, Repr

/-- The local React state of the `SeatSelection` component.  A roster
entry is `Option PassengerDetail`: `none` is a JavaScript array hole
(`undefined` element). -/
structure WizardState where
  selectedSeats : List String
  passengerDetails : List (Option PassengerDetail)
  currentStep : WizardStep
  isLoading : Bool
deriving DecidableEq, Repr

/-- The state at mount: `useState([])`, `useState([])`,
`useState("seats")`, `useState(false)`. -/
def initialState : WizardState :=
  { selectedSeats := [], passengerDetails := [], currentStep := WizardStep.seats,
    isLoading := false }

/-- The JavaScript read `passengerDetails[index] || {name:"",age:"",gender:"male"}`:
an out-of-bounds index or an array hole reads `undefined` (falsy), any
object is truthy. -/
def detailAt (details : List (Option PassengerDetail)) (i : Nat) : PassengerDetail :=
  (details.getD i none).getD defaultDetail

/-- The roster re-derivation in `handleSeatClick`:
`newSelectedSeats.map((seatNum, index) => passengerDetails[index] || {...})`.
The callback ignores `seatNum` and uses only the position, so the result
depends only on the new selection's length — positional truncation. -/
def syncDetails (n : Nat) (old : List (Option PassengerDetail)) :
    List (Option PassengerDetail) :=
  (List.range n).map (fun i => some (detailAt old i))

/-- The `handleSeatClick` handler.  Returns the new state and the toast
raised, if any.  Branch order follows the source: early return on
`seat.is_booked` (silently, no toast); removal via `filter` if already
selected; capacity guard `selectedSeats.length >= 6` with a destructive
toast; otherwise append.  Both mutating branches re-derive
`passengerDetails` positionally via `syncDetails`. -/
def handleSeatClick (st : WizardState) (seat : Seat) : WizardState × Option Toast :=
  if seat.is_booked then (st, none)
  else if st.selectedSeats.contains seat.seat_number then
    let newSel := st.selectedSeats.filter (fun s => s ≠ seat.seat_number)
    ({ st with selectedSeats := newSel,
               passengerDetails := syncDetails newSel.length st.passengerDetails },
     none)
  else if 6 ≤ st.selectedSeats.length then
    (st, some Toast.maxSeatsSelected)
  else
    let newSel := st.selectedSeats ++ [seat.seat_number]
    ({ st with selectedSeats := newSel,
               passengerDetails := syncDetails newSel.length st.passengerDetails },
     none)

/-- Folding a sequence of seat clicks over a state, discarding toasts. -/
def applyToggles (st : WizardState) (ops : List Seat) : WizardState :=
  ops.foldl (fun s seat => (handleSeatClick s seat).1) st

/-- The field names passed to `handlePassengerDetailChange` by the three
inputs of the passenger form. -/
inductive DetailField where
  | name
  | age
  | gender
deriving DecidableEq, Repr

/-- Reading one field of a (possibly absent) detail object: a field of
`undefined`-spread objects that was never assigned is `none`. -/
def fieldGet (od : Option PassengerDetail) (f : DetailField) : Option String :=
  match od with
  | none => none
  | some d =>
    match f with
    | DetailField.name => d.name
    | DetailField.age => d.age
    | DetailField.gender => d.gender

/-- The object build `{ ...updated[index], [field]: value }`: spread the
old entry (spreading `undefined` or a hole yields the empty object, i.e.
all fields absent) and assign the one field. -/
def setEntryField (old : Option PassengerDetail) (f : DetailField) (v : String) :
    PassengerDetail :=
  let base : PassengerDetail := old.getD { name := none, age := none, gender := none }
  match f with
  | DetailField.name => { base with name := some v }
  | DetailField.age => { base with age := some v }
  | DetailField.gender => { base with gender := some v }

/-- JavaScript array assignment `updated[i] = x`: in bounds it replaces
the element; out of bounds it extends the array to length `i + 1`,
filling the gap with holes. -/
def jsWrite (l : List (Option PassengerDetail)) (i : Nat)
    (x : Option PassengerDetail) : List (Option PassengerDetail) :=
  if i < l.length then l.set i x
  else l ++ List.replicate (i - l.length) none ++ [x]

/-- The `handlePassengerDetailChange` handler:
`updated[index] = { ...updated[index], [field]: value }` on a copy of the
roster, then `setPassengerDetails(updated)`.  No bounds check exists in
the source. -/
def handlePassengerDetailChange (st : WizardState) (i : Nat) (f : DetailField)
    (v : String) : WizardState :=
  let updated :=
    jsWrite st.passengerDetails i
      (some (setEntryField (st.passengerDetails.getD i none) f v))
  { st with passengerDetails := updated }

/-- JavaScript falsiness of a string-or-absent field: `undefined` and the
empty string are falsy, every other string is truthy. -/
def jsFalsyStr (os : Option String) : Bool :=
  match os with
  | none => true
  | some s => s = ""

/-- The per-entry test of `passengerDetails.some(p => !p.name || !p.age)`.
`Array.prototype.some` skips holes, so a hole never blocks. -/
def entryBlocks (op : Option PassengerDetail) : Bool :=
  match op with
  | none => false
  | some p => jsFalsyStr p.name || jsFalsyStr p.age

/-- The `disabled` predicate of the "Continue to Payment" button (and the
roster part of the payment tab trigger):
`passengerDetails.some(p => !p.name || !p.age)`. -/
def continueToPaymentDisabled (details : List (Option PassengerDetail)) : Bool :=
  details.any entryBlocks

/-- The guarded transition to the payment step: `setCurrentStep("payment")`
fires only when the button is enabled. -/
def gotoPayment (st : WizardState) : WizardState :=
  if continueToPaymentDisabled st.passengerDetails then st
  else { st with currentStep := WizardStep.payment }

/-- The synchronous prefix of the async `handleBooking` handler, up to and
including the `axios.post`.  Result: new state, toast raised, and
whether a booking request was posted to the network.  The source checks
only `!user`; it never consults `isLoading`. -/
def handleBookingStart (st : WizardState) (hasUser : Bool) :
    WizardState × Option Toast × Bool :=
  if hasUser then ({ st with isLoading := true }, none, true)
  else (st, some Toast.pleaseLogin, false)

/-- Resolution of the awaited `axios.post`: on success a confirmation
toast (and `onBookingComplete`, which belongs to the parent), on failure
a failure toast; the `finally` block clears `isLoading`.  Neither branch
touches `selectedSeats` or `passengerDetails`. -/
def handleBookingFinish (st : WizardState) (success : Bool) : WizardState × Toast :=
  ({ st with isLoading := false },
   if success then Toast.bookingConfirmed else Toast.bookingFailed)

/-- Well-formedness of a wizard state reachable by seat toggles alone:
roster length matches the selection and the roster has no holes. -/
def wfState (st : WizardState) : Bool :=
  (st.passengerDetails.length == st.selectedSeats.length) &&
    st.passengerDetails.all (fun p => p.isSome)

/-! Concrete fixtures for the scenario theorems. -/

/-- A filled-in detail used as "the passenger entered for A1". -/
def detailA1 : PassengerDetail :=
  { name := some "Alice", age := some "30", gender := some "male" }

/-- A filled-in detail used as "the passenger entered for A2". -/
def detailA2 : PassengerDetail :=
  { name := some "Bob", age := some "25", gender := some "female" }

/-- The spec's scenario state: seats A1 and A2 selected in that order,
details entered for both, on the passengers step, not submitting. -/
def scenarioState : WizardState :=
  { selectedSeats := ["A1", "A2"],
    passengerDetails := [some detailA1, some detailA2],
    currentStep := WizardStep.passengers,
    isLoading := false }

/-- Seat A1, available. -/
def seatA1 : Seat := { seat_number := "A1", is_booked := false }

/-- A state with a submit already outstanding (`isLoading = true`). -/
def outstandingState : WizardState :=
  { selectedSeats := ["A1"],
    passengerDetails := [some detailA1],
    currentStep := WizardStep.payment,
    isLoading := true }

/-- A roster whose single entry has a non-empty name and the age string
"0": the string is non-empty so the gate passes, yet it parses to the
non-positive value 0. -/
def zeroAgeState : WizardState :=
  { selectedSeats := ["A1"],
    passengerDetails :=
      [some { name := some "Alice", age := some "0", gender := some "male" }],
    currentStep := WizardStep.passengers,
    isLoading := false }

/-- A one-entry roster state used for the update-out-of-bounds claims. -/
def oneEntryState : WizardState :=
  { selectedSeats := ["A1"],
    passengerDetails := [some detailA1],
    currentStep := WizardStep.passengers,
    isLoading := false }

/-- A booked seat. -/
def bookedSeatB5 : Seat := { seat_number := "B5", is_booked := true }

/-- A full selection of six seats with default details. -/
def sixState : WizardState :=
  { selectedSeats := ["A1", "A2", "A3", "A4", "A5", "A6"],
    passengerDetails := List.replicate 6 (some defaultDetail),
    currentStep := WizardStep.seats,
    isLoading := false }

/-- A seventh available seat. -/
def seatA7 : Seat := { seat_number := "A7", is_booked := false }

/-- Seven clicks on seven distinct available seats. -/
def sevenClicks : List Seat :=
  [{ seat_number := "A1", is_booked := false },
   { seat_number := "A2", is_booked := false },
   { seat_number := "A3", is_booked := false },
   { seat_number := "A4", is_booked := false },
   { seat_number := "A5", is_booked := false },
   { seat_number := "A6", is_booked := false },
   { seat_number := "A7", is_booked := false }]

/-- A fresh available seat, never part of any fixture selection. -/
def seatB2 : Seat := { seat_number := "B2", is_booked := false }

/-- C1.  The claim says deselecting a seat re-derives the roster keyed by
seat identifier, so that after toggling A1 off from [A1, A2] the detail
previously entered for A2 is retained at index 0.  The code instead maps
positionally (`passengerDetails[index]`): the surviving index 0 keeps
A1's detail, and A2's entered detail is lost.  This theorem evaluates
the embedded handler at exactly the spec's scenario and exhibits the
divergence. -/
theorem c1_positional_truncation_loses_data :
    (handleSeatClick scenarioState seatA1).1.selectedSeats = ["A2"] ∧
    (handleSeatClick scenarioState seatA1).1.passengerDetails = [some detailA1] ∧
    detailA1 ≠ detailA2 := by
  refine ⟨rfl, rfl, ?_⟩
  decide

/-- C2.  The claim says a re-entrant submit is rejected by the handler
itself, independent of button disabling, with no second network
interaction.  The handler checks only `!user`, never `isLoading`: called
again while a submit is outstanding it posts a second booking request
(third component `true`). -/
theorem c2_reentrant_submit_posts_again :
    outstandingState.isLoading = true ∧
    handleBookingStart outstandingState true =
      (outstandingState, none, true) := by
  exact ⟨rfl, rfl⟩

/-- Helper: the button predicate in `all` form — the roster passes the
gate exactly when no entry blocks it. -/
theorem all_not_entryBlocks (l : List (Option PassengerDetail)) :
    (l.all fun p => !(entryBlocks p)) = !(l.any entryBlocks) := by
  induction l with
  | nil => rfl
  | cons a t ih => simp [List.all_cons, List.any_cons, ih]

/-- C3 counterexample.  The claim says the transition to payment is
refused whenever some entry has a non-positive age.  The gate only tests
string emptiness (`!p.name || !p.age`): with age "0" — which parses to
the non-positive value 0 — the transition is accepted. -/
theorem c3_zero_age_accepted :
    (gotoPayment zeroAgeState).currentStep = WizardStep.payment ∧
    fieldGet (zeroAgeState.passengerDetails.getD 0 none) DetailField.age = some "0" ∧
    jsFalsyStr (some "0") = false := by
  refine ⟨rfl, rfl, ?_⟩
  decide

/-- C3 amended.  From the passengers step, the transition to payment is
accepted iff no roster entry has an empty-or-absent name or an
empty-or-absent age string.  Positivity or numeric range of the age is
not checked at this gate, and gender never blocks. -/
theorem c3_gate_iff_nonempty_fields (st : WizardState)
    (h : st.currentStep = WizardStep.passengers) :
    (gotoPayment st).currentStep = WizardStep.payment ↔
    (st.passengerDetails.all fun p => !(entryBlocks p)) = true := by
  unfold gotoPayment continueToPaymentDisabled
  rcases hd : st.passengerDetails.any entryBlocks with _ | _
  · simp [hd, all_not_entryBlocks]
  · simp [hd, all_not_entryBlocks, h]

/-- C3 witness: the scenario state with both entries filled in passes the
gate. -/
theorem c3_gate_iff_nonempty_fields_witness :
    (gotoPayment scenarioState).currentStep = WizardStep.payment :=
  (c3_gate_iff_nonempty_fields scenarioState rfl).mpr (by decide)

/-- C4 counterexample.  The claim says an out-of-bounds update fails with
IndexOutOfRange and leaves the roster unchanged.  The source has no
bounds check: writing index 2 into a one-entry roster extends it to
three entries — a hole at index 1 and, at index 2, an object holding
only the assigned field. -/
theorem c4_out_of_bounds_mutates :
    (handlePassengerDetailChange oneEntryState 2 DetailField.name "Eve").passengerDetails
      = [some detailA1, none,
         some { name := some "Eve", age := none, gender := none }] ∧
    (handlePassengerDetailChange oneEntryState 2 DetailField.name "Eve").passengerDetails
      ≠ oneEntryState.passengerDetails := by
  refine ⟨rfl, ?_⟩
  decide

/-- C4 amended.  An in-bounds update edits exactly the addressed entry in
place; an out-of-bounds update does not fail and does not leave the
roster unchanged: it extends the roster with holes up to the index and
writes there an entry holding only the assigned field. -/
theorem c4_update_bounds_behaviour (st : WizardState) (i : Nat) (f : DetailField)
    (v : String) :
    (st.passengerDetails.length ≤ i →
      (handlePassengerDetailChange st i f v).passengerDetails =
        st.passengerDetails ++ List.replicate (i - st.passengerDetails.length) none ++
          [some (setEntryField none f v)] ∧
      (handlePassengerDetailChange st i f v).passengerDetails ≠ st.passengerDetails) ∧
    (i < st.passengerDetails.length →
      (handlePassengerDetailChange st i f v).passengerDetails =
        st.passengerDetails.set i
          (some (setEntryField (st.passengerDetails.getD i none) f v))) := by
  unfold handlePassengerDetailChange jsWrite
  constructor
  · intro hle
    have hnot : ¬ i < st.passengerDetails.length := Nat.not_lt.mpr hle
    refine ⟨?_, ?_⟩
    · rw [List.getD_eq_default _ _ hle]
      simp [hnot]
    · intro heq
      have hlen := congrArg List.length heq
      simp [hnot, List.length_append, List.length_replicate] at hlen
  · intro hlt
    simp only [hlt, if_true]

/-- C4 witness: the out-of-bounds and in-bounds cases of the amended
theorem at concrete inputs. -/
theorem c4_update_bounds_behaviour_witness :
    ((handlePassengerDetailChange oneEntryState 3 DetailField.age "7").passengerDetails =
       oneEntryState.passengerDetails ++
         List.replicate (3 - oneEntryState.passengerDetails.length) none ++
         [some (setEntryField none DetailField.age "7")] ∧
     (handlePassengerDetailChange oneEntryState 3 DetailField.age "7").passengerDetails ≠
       oneEntryState.passengerDetails) ∧
    (handlePassengerDetailChange oneEntryState 0 DetailField.age "7").passengerDetails =
      oneEntryState.passengerDetails.set 0
        (some (setEntryField (oneEntryState.passengerDetails.getD 0 none)
          DetailField.age "7")) :=
  ⟨(c4_update_bounds_behaviour oneEntryState 3 DetailField.age "7").1 (by decide),
   (c4_update_bounds_behaviour oneEntryState 0 DetailField.age "7").2 (by decide)⟩

/-- C7 counterexample.  The claim says toggling an unavailable seat emits
a SeatUnavailable warning.  The handler's first line is a bare
`if (seat.is_booked) return;`: the click is ignored silently, and no
toast at all is raised (the second component is `none`; the component
has no seat-unavailable toast anywhere). -/
theorem c7_booked_click_silent :
    handleSeatClick scenarioState bookedSeatB5 = (scenarioState, none) := rfl

/-- C7 amended.  Toggling a booked seat is a no-op on the whole wizard
state regardless of the current selection, but no warning is emitted:
the click is silently ignored (the seat button is also disabled at the
presentation level). -/
theorem c7_booked_click_noop (st : WizardState) (seat : Seat)
    (h : seat.is_booked = true) :
    handleSeatClick st seat = (st, none) := by
  simp [handleSeatClick, h]

/-- C7 witness: a booked seat clicked from the initial state. -/
theorem c7_booked_click_noop_witness :
    handleSeatClick initialState bookedSeatB5 = (initialState, none) :=
  c7_booked_click_noop initialState bookedSeatB5 rfl

/-- C8.  When the booking request fails, the selection and the roster are
exactly as before the submit: the catch branch only raises a toast and
the finally branch only clears `isLoading`. -/
theorem c8_failed_submit_preserves_data (st : WizardState) (hasUser : Bool)
    (_h : st.currentStep = WizardStep.payment) :
    (handleBookingFinish (handleBookingStart st hasUser).1 false).1.selectedSeats =
      st.selectedSeats ∧
    (handleBookingFinish (handleBookingStart st hasUser).1 false).1.passengerDetails =
      st.passengerDetails := by
  cases hasUser <;> simp [handleBookingStart, handleBookingFinish]

/-- C8 witness: a failed submit from the concrete payment-step state. -/
theorem c8_failed_submit_preserves_data_witness :
    (handleBookingFinish (handleBookingStart outstandingState true).1 false).1.selectedSeats =
      outstandingState.selectedSeats ∧
    (handleBookingFinish (handleBookingStart outstandingState true).1 false).1.passengerDetails =
      outstandingState.passengerDetails :=
  c8_failed_submit_preserves_data outstandingState true rfl

/-- Helper: reading the assigned field of the freshly built entry yields
the assigned value. -/
theorem fieldGet_setEntryField_self (old : Option PassengerDetail) (f : DetailField)
    (v : String) : fieldGet (some (setEntryField old f v)) f = some v := by
  cases old <;> cases f <;> rfl

/-- Helper: reading any other field of the freshly built entry yields the
old entry's field (absent if the old entry was a hole). -/
theorem fieldGet_setEntryField_ne (old : Option PassengerDetail) (f g : DetailField)
    (v : String) (h : g ≠ f) :
    fieldGet (some (setEntryField old f v)) g = fieldGet old g := by
  cases old <;> cases f <;> cases g <;> first
    | rfl
    | exact absurd rfl h

/-- Helper: `getD` after `set` at a different index is unchanged. -/
theorem getD_set_ne {α : Type} (l : List α) (d : α) (i j : Nat) (x : α)
    (h : j ≠ i) : (l.set i x).getD j d = l.getD j d := by
  by_cases hj : j < l.length
  · have hj2 : j < (l.set i x).length := by simpa using hj
    rw [List.getD_eq_getElem _ _ hj2, List.getD_eq_getElem _ _ hj]
    exact List.getElem_set_ne (Ne.symm h) _
  · have hj2 : l.length ≤ j := Nat.not_lt.mp hj
    rw [List.getD_eq_default _ _ hj2, List.getD_eq_default _ _ (by simpa using hj2)]

/-- C10.  An in-bounds passenger-detail update is frame-respecting: the
selection, the step, the loading flag, the roster length and every other
roster entry are unchanged; at the addressed entry, the named field
becomes the new value and the other fields keep their old values. -/
theorem c10_update_frame (st : WizardState) (i : Nat) (f : DetailField) (v : String)
    (h : i < st.passengerDetails.length) :
    (handlePassengerDetailChange st i f v).selectedSeats = st.selectedSeats ∧
    (handlePassengerDetailChange st i f v).currentStep = st.currentStep ∧
    (handlePassengerDetailChange st i f v).isLoading = st.isLoading ∧
    (handlePassengerDetailChange st i f v).passengerDetails.length =
      st.passengerDetails.length ∧
    (∀ j, j ≠ i →
      (handlePassengerDetailChange st i f v).passengerDetails.getD j none =
        st.passengerDetails.getD j none) ∧
    fieldGet ((handlePassengerDetailChange st i f v).passengerDetails.getD i none) f
      = some v ∧
    (∀ g, g ≠ f →
      fieldGet ((handlePassengerDetailChange st i f v).passengerDetails.getD i none) g
        = fieldGet (st.passengerDetails.getD i none) g) := by
  have hset : (handlePassengerDetailChange st i f v).passengerDetails =
      st.passengerDetails.set i
        (some (setEntryField (st.passengerDetails.getD i none) f v)) := by
    simp [handlePassengerDetailChange, jsWrite, h]
  have hi : i < (st.passengerDetails.set i
      (some (setEntryField (st.passengerDetails.getD i none) f v))).length := by
    simpa using h
  have hget : (handlePassengerDetailChange st i f v).passengerDetails.getD i none =
      some (setEntryField (st.passengerDetails.getD i none) f v) := by
    rw [hset, List.getD_eq_getElem _ _ hi, List.getElem_set_self]
  refine ⟨rfl, rfl, rfl, ?_, ?_, ?_, ?_⟩
  · rw [hset, List.length_set]
  · intro j hj
    rw [hset, getD_set_ne _ _ _ _ _ hj]
  · rw [hget]
    exact fieldGet_setEntryField_self _ _ _
  · intro g hg
    rw [hget]
    exact fieldGet_setEntryField_ne _ _ _ _ hg

/-- C10 witness: updating the age of the second entry of the scenario
state leaves the selection, the first entry and the second entry's name
alone while setting the age. -/
theorem c10_update_frame_witness :
    (handlePassengerDetailChange scenarioState 1 DetailField.age "41").selectedSeats =
      scenarioState.selectedSeats ∧
    (handlePassengerDetailChange scenarioState 1 DetailField.age "41").passengerDetails.length =
      scenarioState.passengerDetails.length ∧
    (handlePassengerDetailChange scenarioState 1 DetailField.age "41").passengerDetails.getD 0 none =
      scenarioState.passengerDetails.getD 0 none ∧
    fieldGet ((handlePassengerDetailChange scenarioState 1 DetailField.age "41").passengerDetails.getD 1 none)
      DetailField.age = some "41" ∧
    fieldGet ((handlePassengerDetailChange scenarioState 1 DetailField.age "41").passengerDetails.getD 1 none)
      DetailField.name = fieldGet (scenarioState.passengerDetails.getD 1 none) DetailField.name := by
  obtain ⟨h1, _h2, _h3, h4, h5, h6, h7⟩ :=
    c10_update_frame scenarioState 1 DetailField.age "41" (by decide)
  exact ⟨h1, h4, h5 0 (by decide), h6, h7 DetailField.name (by decide)⟩

/-- Helper: the re-derived roster always has exactly the requested
length. -/
theorem syncDetails_length (n : Nat) (old : List (Option PassengerDetail)) :
    (syncDetails n old).length = n := by
  simp [syncDetails]

/-- Helper: one seat click keeps the selection within the capacity bound
of 6. -/
theorem handleSeatClick_length_le (st : WizardState) (seat : Seat)
    (h : st.selectedSeats.length ≤ 6) :
    (handleSeatClick st seat).1.selectedSeats.length ≤ 6 := by
  unfold handleSeatClick
  cases hb : seat.is_booked with
  | true => simpa [hb] using h
  | false =>
    cases hc : st.selectedSeats.contains seat.seat_number with
    | true =>
      simp only [hb, hc, Bool.false_eq_true, if_false, if_true]
      exact le_trans (List.length_filter_le _ _) h
    | false =>
      by_cases h6 : 6 ≤ st.selectedSeats.length
      · simpa [hb, hc, h6] using h
      · simp only [hb, hc, h6, Bool.false_eq_true, if_false, if_true]
        simp [List.length_append]
        omega

/-- C5.  Starting from the empty wizard state, no sequence of seat clicks
pushes the selection above 6 seats; and clicking a new available seat
while exactly 6 are selected leaves the whole state untouched and raises
the destructive "Maximum 6 seats can be selected" toast. -/
theorem c5_capacity_bound (ops : List Seat) (st : WizardState) (seat : Seat)
    (hb : seat.is_booked = false)
    (hc : st.selectedSeats.contains seat.seat_number = false)
    (hlen : st.selectedSeats.length = 6) :
    (applyToggles initialState ops).selectedSeats.length ≤ 6 ∧
    handleSeatClick st seat = (st, some Toast.maxSeatsSelected) := by
  constructor
  · have key : ∀ (l : List Seat) (s : WizardState), s.selectedSeats.length ≤ 6 →
        (applyToggles s l).selectedSeats.length ≤ 6 := by
      intro l
      induction l with
      | nil => intro s hs; exact hs
      | cons a t ih =>
        intro s hs
        exact ih _ (handleSeatClick_length_le s a hs)
    exact key ops initialState (by decide)
  · unfold handleSeatClick
    have hmem : seat.seat_number ∉ st.selectedSeats := by
      simpa [List.contains] using hc
    simp [hb, hmem, hlen]

/-- C5 witness: seven clicks from the empty state stay within the bound,
and the seventh click on a full selection is the exact no-op with the
capacity toast. -/
theorem c5_capacity_bound_witness :
    (applyToggles initialState sevenClicks).selectedSeats.length ≤ 6 ∧
    handleSeatClick sixState seatA7 = (sixState, some Toast.maxSeatsSelected) :=
  c5_capacity_bound sevenClicks sixState seatA7 rfl (by decide) (by decide)

/-- Helper: one seat click preserves the invariant that the roster length
equals the selection length (any mutating branch re-derives the roster at
exactly the new selection's length). -/
theorem handleSeatClick_length_sync (st : WizardState) (seat : Seat)
    (h : st.passengerDetails.length = st.selectedSeats.length) :
    (handleSeatClick st seat).1.passengerDetails.length =
      (handleSeatClick st seat).1.selectedSeats.length := by
  unfold handleSeatClick
  cases hb : seat.is_booked with
  | true => simpa [hb] using h
  | false =>
    cases hc : st.selectedSeats.contains seat.seat_number with
    | true => simp [hb, hc, syncDetails_length]
    | false =>
      by_cases h6 : 6 ≤ st.selectedSeats.length
      · simpa [hb, hc, h6] using h
      · simp [hb, hc, h6, syncDetails_length]

/-- C6.  After any sequence of seat clicks from the empty wizard state,
the roster length equals the selection size. -/
theorem c6_roster_selection_sync (ops : List Seat) :
    (applyToggles initialState ops).passengerDetails.length =
      (applyToggles initialState ops).selectedSeats.length := by
  have key : ∀ (l : List Seat) (s : WizardState),
      s.passengerDetails.length = s.selectedSeats.length →
      (applyToggles s l).passengerDetails.length =
        (applyToggles s l).selectedSeats.length := by
    intro l
    induction l with
    | nil => intro s hs; exact hs
    | cons a t ih =>
      intro s hs
      exact ih _ (handleSeatClick_length_sync s a hs)
  exact key ops initialState rfl

/-- Helper: field-wise equality of wizard states. -/
theorem wizardState_eq (a b : WizardState)
    (h1 : a.selectedSeats = b.selectedSeats)
    (h2 : a.passengerDetails = b.passengerDetails)
    (h3 : a.currentStep = b.currentStep)
    (h4 : a.isLoading = b.isLoading) : a = b := by
  cases a
  cases b
  simp_all

/-- Helper: the re-derived roster at an in-range position holds exactly
the positional read of the old roster. -/
theorem syncDetails_getD (m i : Nat) (old : List (Option PassengerDetail))
    (h : i < m) : (syncDetails m old).getD i none = some (detailAt old i) := by
  have hlen : i < (syncDetails m old).length := by
    simpa [syncDetails_length] using h
  rw [List.getD_eq_getElem _ _ hlen]
  simp [syncDetails]

/-- Helper: re-deriving at width `n` after re-deriving at a width `m ≥ n`
is the same as re-deriving at width `n` directly. -/
theorem syncDetails_comp (n m : Nat) (old : List (Option PassengerDetail))
    (h : n ≤ m) : syncDetails n (syncDetails m old) = syncDetails n old := by
  have key : ∀ i ∈ List.range n,
      some (detailAt (syncDetails m old) i) = some (detailAt old i) := by
    intro i hi0
    have hn : i < n := List.mem_range.mp hi0
    have hi : i < m := by omega
    have hd : detailAt (syncDetails m old) i = detailAt old i := by
      unfold detailAt
      rw [syncDetails_getD m i old hi]
      rfl
    rw [hd]
  calc syncDetails n (syncDetails m old)
      = (List.range n).map (fun i => some (detailAt (syncDetails m old) i)) := rfl
    _ = (List.range n).map (fun i => some (detailAt old i)) :=
        List.map_congr_left key
    _ = syncDetails n old := rfl

/-- Helper: re-deriving a hole-free roster at its own length is the
identity. -/
theorem syncDetails_self (details : List (Option PassengerDetail))
    (hsome : ∀ p ∈ details, p.isSome = true) :
    syncDetails details.length details = details := by
  apply List.ext_getElem
  · simp [syncDetails_length]
  · intro i h1 h2
    simp only [syncDetails, List.getElem_map, List.getElem_range]
    obtain ⟨x, hx⟩ := Option.isSome_iff_exists.mp (hsome _ (List.getElem_mem h2))
    unfold detailAt
    rw [List.getD_eq_getElem _ _ h2, hx]
    rfl

/-- C9 counterexample.  Toggling seat A1 off and on again from the
scenario state [A1, A2] yields the ordered selection [A2, A1], not the
prior [A1, A2]; and the still-selected seat A2 ends up carrying A1's
previously entered detail while its own is lost. -/
theorem c9_double_toggle_reorders :
    (handleSeatClick (handleSeatClick scenarioState seatA1).1 seatA1).1.selectedSeats
      = ["A2", "A1"] ∧
    (handleSeatClick (handleSeatClick scenarioState seatA1).1 seatA1).1.selectedSeats
      ≠ scenarioState.selectedSeats ∧
    (handleSeatClick (handleSeatClick scenarioState seatA1).1 seatA1).1.passengerDetails
      = [some detailA1, some defaultDetail] ∧
    (handleSeatClick (handleSeatClick scenarioState seatA1).1 seatA1).1.passengerDetails
      ≠ scenarioState.passengerDetails := by
  refine ⟨by decide, by decide, by decide, by decide⟩

/-- C9 amended.  For a seat that is available and not currently selected,
toggling it twice from a hole-free, length-consistent state returns the
whole wizard state — ordered selection and all passenger data — to
exactly its prior value.  (For an already-selected seat the round trip
fails: the seat moves to the end of the selection and the positional
re-derivation re-associates the details, as the counterexample shows.) -/
theorem c9_double_toggle_roundtrip (st : WizardState) (seat : Seat)
    (hb : seat.is_booked = false)
    (hc : st.selectedSeats.contains seat.seat_number = false)
    (hwf : wfState st = true) :
    (handleSeatClick (handleSeatClick st seat).1 seat).1 = st := by
  have hmem : seat.seat_number ∉ st.selectedSeats := by
    simpa [List.contains] using hc
  rw [wfState] at hwf
  simp only [Bool.and_eq_true, beq_iff_eq, List.all_eq_true] at hwf
  obtain ⟨hlen, hsome⟩ := hwf
  by_cases h6 : 6 ≤ st.selectedSeats.length
  · have e1 : handleSeatClick st seat = (st, some Toast.maxSeatsSelected) := by
      unfold handleSeatClick
      simp [hb, hmem, h6]
    simp [e1]
  · have e1 : (handleSeatClick st seat).1 =
        { st with
          selectedSeats := st.selectedSeats ++ [seat.seat_number],
          passengerDetails :=
            syncDetails (st.selectedSeats ++ [seat.seat_number]).length
              st.passengerDetails } := by
      unfold handleSeatClick
      simp [hb, hmem, h6]
    have hfilter : st.selectedSeats.filter
        (fun x => !decide (x = seat.seat_number)) = st.selectedSeats := by
      rw [List.filter_eq_self]
      intro a ha
      have hne : a ≠ seat.seat_number := fun h => hmem (h ▸ ha)
      simp [hne]
    have hsync : syncDetails st.selectedSeats.length
        (syncDetails (st.selectedSeats.length + 1) st.passengerDetails) =
        st.passengerDetails := by
      rw [syncDetails_comp _ _ _ (Nat.le_succ _), ← hlen, syncDetails_self _ hsome]
    rw [e1]
    unfold handleSeatClick
    simp only [hb, Bool.false_eq_true, if_false]
    simp [hfilter, hsync]

/-- C9 witness: double-toggling the fresh seat B2 from the one-entry
state restores that state exactly. -/
theorem c9_double_toggle_roundtrip_witness :
    (handleSeatClick (handleSeatClick oneEntryState seatB2).1 seatB2).1 =
      oneEntryState :=
  c9_double_toggle_roundtrip oneEntryState seatB2 rfl (by decide) (by decide)
